import Mathlib

set_option maxHeartbeats 1000000
set_option maxRecDepth 4000

/-!
Verification of DevWebBootcamp/BackEnd (FastAPI storage-inventory service).

Shallow embedding of the code in `src/app/crud.py`, `src/api/storage_router.py`
and `src/api/user_router.py`.  The relational store is a record of lists of
rows, the Redis cache is a record of association lists, the image store is a
list of file paths, HTTP outcomes are `HRes` values carrying the status code
and detail string the Python code raises via `HTTPException`.
-/

namespace BackEnd

/-- HTTP-level outcome of a handler: `ok` with the returned value, or `err`
with the `HTTPException` status code and detail string. -/
inductive HRes (α : Type) where
  | ok : α → HRes α
  | err : Nat → String → HRes α
deriving DecidableEq

/-- Row of table `member_user` (model.py `MemberUser`); timestamps elided,
`birthday` kept as its serialized string form. -/
structure MemberUser where
  user_no : Nat
  email : String
  password : String
  user_name : String
  cell_phone : String
  birthday : String
  gender : String
  user_isDisabled : Bool
  verification_code : Option String
deriving DecidableEq

/-- Row of table `member_profile` (model.py `MemberProfile`). -/
structure MemberProfile where
  profile_id : Nat
  user_no : Nat
  nickname : Option String
  image_url : Option String
deriving DecidableEq

/-- Row of table `storage_area` (model.py `Storage_Area`). -/
structure Storage_Area where
  area_no : Nat
  user_no : Nat
  area_name : String
  storage_owner : Bool
deriving DecidableEq

/-- Row of table `storage_room` (model.py `Storage_Room`). -/
structure Storage_Room where
  room_no : Nat
  area_no : Nat
  room_name : String
deriving DecidableEq

/-- Row of table `storage_storage` (model.py `Storage_Storage`). -/
structure Storage_Storage where
  storage_no : Nat
  room_no : Nat
  storage_name : String
  storage_row : Int
deriving DecidableEq

/-- Row of table `item` (model.py `Item`); timestamps and expiration date
elided, the image URL column is nullable. -/
structure Item where
  item_id : Nat
  storage_no : Nat
  item_name : String
  row_num : Int
  item_imageURL : Option String
  item_type : String
  item_quantity : Int
deriving DecidableEq

/-- The relational store: one list of rows per table, plus the
auto-increment counters for the primary keys generated on insert. -/
structure DB where
  users : List MemberUser
  profiles : List MemberProfile
  areas : List Storage_Area
  rooms : List Storage_Room
  storages : List Storage_Storage
  items : List Item
  next_user_no : Nat
  next_area_no : Nat
deriving DecidableEq

/-- The projection of a `member_user` row that `get_user_by_no` serializes
into Redis (crud.py lines 58-65): note it has no password, no
`user_isDisabled` flag and no profile relationship. -/
structure CachedUser where
  user_no : Nat
  email : String
  user_name : String
  cell_phone : String
  birthday : String
  gender : String
deriving DecidableEq

/-- The projection of a `member_profile` row cached by
`get_profile_by_user_no`. -/
structure CachedProfile where
  profile_id : Nat
  user_no : Nat
  nickname : Option String
  image_url : Option String
deriving DecidableEq

/-- The projection of an `item` row that `get_items_by_storage` serializes
into Redis (crud.py lines 442-451). -/
structure CachedItem where
  item_id : Nat
  item_name : String
  row_num : Int
  item_imageURL : Option String
  item_type : String
  item_quantity : Int
deriving DecidableEq

/-- The Redis cache: an association list per key prefix (`user:`,
`profile:`, `item:`); expiry is irrelevant to the claims, an entry is
either present or absent. -/
structure Cache where
  userCache : List (Nat × CachedUser)
  profileCache : List (Nat × CachedProfile)
  itemCache : List (Nat × List CachedItem)
deriving DecidableEq

/-- `redis_client.get` on an association list. -/
def cacheGet {β : Type} (c : List (Nat × β)) (k : Nat) : Option β :=
  (c.find? (fun p => p.1 == k)).map (fun p => p.2)

/-- `redis_client.setex` on an association list (expiry dropped). -/
def cacheSet {β : Type} (c : List (Nat × β)) (k : Nat) (v : β) : List (Nat × β) :=
  (k, v) :: c.filter (fun p => p.1 != k)

/-- `redis_client.delete` on an association list. -/
def cacheDel {β : Type} (c : List (Nat × β)) (k : Nat) : List (Nat × β) :=
  c.filter (fun p => p.1 != k)

/-- Python truthiness of an optional string (`None` and `""` are falsy). -/
def truthyStr : Option String → Bool
  | none => false
  | some s => !s.isEmpty

/-- Replace the first element satisfying `p` (the row fetched by
`.first()` and then mutated in place before `db.commit()`). -/
def replaceFirst {α : Type} (p : α → Bool) (f : α → α) : List α → List α
  | [] => []
  | x :: xs => if p x then f x :: xs else x :: replaceFirst p f xs

/-- `os.path.basename`: the component after the last `/`. -/
def basename (s : String) : String :=
  (s.splitOn "/").getLastD s

/-- `os.path.join` for the two-component uses in crud.py. -/
def path_join (dir file : String) : String := dir ++ "/" ++ file

/-- config.py `ITEM_IMAGE_DIR` (the BASE_DIR portion is irrelevant). -/
def ITEM_IMAGE_DIR : String := "app/images/items"

/-- Payload of a signup request (schema.py `UserCreate`). -/
structure UserCreate where
  email : String
  password : String
  user_name : String
  cell_phone : String
  birthday : String
  gender : String
deriving DecidableEq

/-- schema.py `RoomUpdate`: optional new room name. -/
structure RoomUpdate where
  room_name : Option String
deriving DecidableEq

/-- schema.py `StorageUpdate` restricted to the columns that exist on the
`storage_storage` table (`storage_location`/`storage_description` have no
column in model.py); `none` means the field was not supplied. -/
structure StorageUpdate where
  storage_name : Option String
  storage_row : Option Int
deriving DecidableEq

/-- schema.py `ItemUpdate` restricted to the modelled columns; `none`
means the field was not supplied. -/
structure ItemUpdate where
  item_name : Option String
  item_type : Option String
  item_quantity : Option Int
  row_num : Option Int
  item_imageURL : Option String
deriving DecidableEq

/-- schema.py `ProfileUpdate`: optional new nickname (the code tests it
with `is not None`, not truthiness). -/
structure ProfileUpdate where
  nickname : Option String
deriving DecidableEq

/-- What `get_user_by_no` hands back to its caller: the ORM row on the
database path, or the deserialized JSON dict on a cache hit.  The two are
different Python types with different attribute surfaces. -/
inductive UserVal where
  | orm : MemberUser → UserVal
  | dict : CachedUser → UserVal
deriving DecidableEq

/-- What `get_items_by_storage` hands back: deserialized dicts on a cache
hit, ORM rows on the database path. -/
inductive ItemsResult where
  | fromCache : List CachedItem → ItemsResult
  | fromDb : List Item → ItemsResult
deriving DecidableEq

/-- Python truthiness of the value returned by `get_items_by_storage`
(a non-empty list in either representation). -/
def ItemsResult.truthy : ItemsResult → Bool
  | fromCache l => !l.isEmpty
  | fromDb l => !l.isEmpty

namespace crud

/-- crud.py `get_user_by_no`: cache first; on a miss the full ORM row is
returned and its six-field projection is written to the cache. -/
def get_user_by_no (db : DB) (cache : Cache) (user_no : Nat) : Option UserVal × Cache :=
  match cacheGet cache.userCache user_no with
  | some cu => (some (UserVal.dict cu), cache)
  | none =>
    match (db.users.filter (fun u => u.user_no == user_no)).head? with
    | none => (none, cache)
    | some u =>
      let user_dict : CachedUser :=
        { user_no := u.user_no, email := u.email, user_name := u.user_name,
          cell_phone := u.cell_phone, birthday := u.birthday, gender := u.gender }
      (some (UserVal.orm u), { cache with userCache := cacheSet cache.userCache user_no user_dict })

/-- crud.py `get_user_by_email`. -/
def get_user_by_email (db : DB) (email : String) : Option MemberUser :=
  (db.users.filter (fun u => u.email == email)).head?

/-- crud.py `get_user_by_phone`. -/
def get_user_by_phone (db : DB) (cell_phone : String) : Option MemberUser :=
  (db.users.filter (fun u => u.cell_phone == cell_phone)).head?

/-- Stand-in for the external collaborator `member_user.get_password_hash`
(bcrypt is outside the modelled scope). -/
def get_password_hash (password : String) : String := "bcrypt$" ++ password

/-- crud.py `create_user`: inserts a disabled user row carrying the
verification code. -/
def create_user (db : DB) (user : UserCreate) (verification_code : String) :
    MemberUser × DB :=
  let db_user : MemberUser :=
    { user_no := db.next_user_no, email := user.email,
      password := get_password_hash user.password, user_name := user.user_name,
      cell_phone := user.cell_phone, birthday := user.birthday, gender := user.gender,
      user_isDisabled := true, verification_code := some verification_code }
  (db_user, { db with users := db.users ++ [db_user], next_user_no := db.next_user_no + 1 })

/-- crud.py `profile_update`.  `user.profile` is the 1:1 relationship
lookup on the ORM row; on a cache hit `get_user_by_no` returns a plain
dict, so that attribute access raises `AttributeError`, which surfaces as
an internal server error (500) since no handler catches it. -/
def profile_update (db : DB) (cache : Cache) (user_no : Nat) (profile_data : ProfileUpdate) :
    HRes MemberProfile × DB × Cache :=
  match get_user_by_no db cache user_no with
  | (none, c1) => (.err 404 "User not found", db, c1)
  | (some (UserVal.dict _), c1) => (.err 500 "AttributeError: dict object has no attribute profile", db, c1)
  | (some (UserVal.orm u), c1) =>
    match (db.profiles.filter (fun p => p.user_no == u.user_no)).head? with
    | none => (.err 404 "Profile not found", db, c1)
    | some p =>
      let upd : MemberProfile → MemberProfile := fun x =>
        { x with nickname := match profile_data.nickname with
                             | some n => some n
                             | none => x.nickname }
      let db2 := { db with profiles := replaceFirst (fun x => x.user_no == u.user_no) upd db.profiles }
      (.ok (upd p), db2, { c1 with profileCache := cacheDel c1.profileCache user_no })

/-- crud.py `create_storage_space`: inserts an area row with
`storage_owner=True` and the generated key. -/
def create_storage_space (db : DB) (user_no : Nat) (area_name : String) :
    Storage_Area × DB :=
  let storage_space : Storage_Area :=
    { area_no := db.next_area_no, user_no := user_no,
      area_name := area_name, storage_owner := true }
  (storage_space, { db with areas := db.areas ++ [storage_space], next_area_no := db.next_area_no + 1 })

/-- crud.py `load_user_storage_space`: 404 when the user has no owned
areas, otherwise the list. -/
def load_user_storage_space (db : DB) (user_no : Nat) : HRes (List Storage_Area) :=
  let spaces := db.areas.filter (fun a => a.user_no == user_no && a.storage_owner)
  if spaces.isEmpty then
    .err 404 "No storage spaces found for this user with the given area_no"
  else .ok spaces

/-- crud.py `get_user_storage_space`: first row matching user, area and
owner flag, 404 otherwise. -/
def get_user_storage_space (db : DB) (user_no area_no : Nat) : HRes Storage_Area :=
  match (db.areas.filter (fun a =>
      a.user_no == user_no && a.area_no == area_no && a.storage_owner)).head? with
  | none => .err 404 "No storage space found for this user with the given area_no"
  | some space => .ok space

/-- crud.py `update_storage_space`: renames the first row matching user
and area (no owner-flag filter here). -/
def update_storage_space (db : DB) (user_no area_no : Nat) (area_name : String) :
    HRes Storage_Area × DB :=
  match (db.areas.filter (fun a => a.user_no == user_no && a.area_no == area_no)).head? with
  | none => (.err 404 "Storage area not found", db)
  | some s =>
    (.ok { s with area_name := area_name },
     { db with areas := replaceFirst (fun a => a.user_no == user_no && a.area_no == area_no)
                          (fun a => { a with area_name := area_name }) db.areas })

/-- crud.py `delete_storage_space`. -/
def delete_storage_space (db : DB) (user_no area_no : Nat) : HRes String × DB :=
  match (db.areas.filter (fun a => a.user_no == user_no && a.area_no == area_no)).head? with
  | none => (.err 404 "Storage area not found", db)
  | some s => (.ok "Storage space deleted successfully", { db with areas := db.areas.erase s })

/-- crud.py `get_areas_by_user` (no owner-flag filter). -/
def get_areas_by_user (db : DB) (user_no : Nat) : List Storage_Area :=
  db.areas.filter (fun a => a.user_no == user_no)

/-- crud.py `get_room`. -/
def get_room (db : DB) (room_no : Nat) : Option Storage_Room :=
  (db.rooms.filter (fun r => r.room_no == room_no)).head?

/-- crud.py `get_rooms_by_area`. -/
def get_rooms_by_area (db : DB) (area_no : Nat) : List Storage_Room :=
  db.rooms.filter (fun r => r.area_no == area_no)

/-- crud.py `get_rooms_by_user`: join of rooms with the user's areas on
`area_no`. -/
def get_rooms_by_user (db : DB) (user_no : Nat) : List Storage_Room :=
  db.rooms.filter (fun r =>
    db.areas.any (fun a => r.area_no == a.area_no && a.user_no == user_no))

/-- crud.py `update_room`: renames only when the supplied name is truthy. -/
def update_room (db : DB) (room_no : Nat) (room_data : RoomUpdate) :
    HRes Storage_Room × DB :=
  match get_room db room_no with
  | none => (.err 404 "Room not found", db)
  | some r =>
    if truthyStr room_data.room_name then
      let name := room_data.room_name.getD ""
      (.ok { r with room_name := name },
       { db with rooms := replaceFirst (fun x => x.room_no == room_no)
                            (fun x => { x with room_name := name }) db.rooms })
    else (.ok r, db)

/-- crud.py `delete_room`. -/
def delete_room (db : DB) (room_no : Nat) : HRes String × DB :=
  match get_room db room_no with
  | none => (.err 404 "Room not found", db)
  | some r => (.ok "Room deleted successfully", { db with rooms := db.rooms.erase r })

/-- crud.py `get_storage`: 404 when absent. -/
def get_storage (db : DB) (storage_no : Nat) : HRes Storage_Storage :=
  match (db.storages.filter (fun s => s.storage_no == storage_no)).head? with
  | none => .err 404 "Storage not found"
  | some s => .ok s

/-- crud.py `get_storages_by_room`. -/
def get_storages_by_room (db : DB) (room_no : Nat) : List Storage_Storage :=
  db.storages.filter (fun s => s.room_no == room_no)

/-- The `setattr` loop of crud.py `update_storage` over the supplied
fields. -/
def applyStorageUpdate (u : StorageUpdate) (s : Storage_Storage) : Storage_Storage :=
  { s with storage_name := u.storage_name.getD s.storage_name,
           storage_row := u.storage_row.getD s.storage_row }

/-- crud.py `update_storage`. -/
def update_storage (db : DB) (storage_no : Nat) (storage_data : StorageUpdate) :
    HRes Storage_Storage × DB :=
  match get_storage db storage_no with
  | .err c d => (.err c d, db)
  | .ok s =>
    (.ok (applyStorageUpdate storage_data s),
     { db with storages := replaceFirst (fun x => x.storage_no == storage_no)
                             (applyStorageUpdate storage_data) db.storages })

/-- crud.py `delete_storage`. -/
def delete_storage (db : DB) (storage_no : Nat) : HRes String × DB :=
  match get_storage db storage_no with
  | .err c d => (.err c d, db)
  | .ok s => (.ok "Storage deleted successfully", { db with storages := db.storages.erase s })

/-- crud.py `get_item`: 404 when absent. -/
def get_item (db : DB) (item_id : Nat) : HRes Item :=
  match (db.items.filter (fun i => i.item_id == item_id)).head? with
  | none => .err 404 "Item not found"
  | some i => .ok i

/-- The dict projection crud.py `get_items_by_storage` serializes. -/
def itemToCached (i : Item) : CachedItem :=
  { item_id := i.item_id, item_name := i.item_name, row_num := i.row_num,
    item_imageURL := i.item_imageURL, item_type := i.item_type,
    item_quantity := i.item_quantity }

/-- crud.py `get_items_by_storage`: cache hit returns the cached dicts;
on a miss the rows are fetched and, when non-empty, cached (TTL dropped).
No write to the `item` table ever deletes this cache entry. -/
def get_items_by_storage (db : DB) (cache : Cache) (storage_no : Nat) :
    ItemsResult × Cache :=
  match cacheGet cache.itemCache storage_no with
  | some cached => (ItemsResult.fromCache cached, cache)
  | none =>
    let items := db.items.filter (fun i => i.storage_no == storage_no)
    if items.isEmpty then (ItemsResult.fromDb items, cache)
    else (ItemsResult.fromDb items,
          { cache with itemCache := cacheSet cache.itemCache storage_no (items.map itemToCached) })

/-- The `setattr` loop of crud.py `update_item` over the supplied
fields. -/
def applyItemUpdate (u : ItemUpdate) (i : Item) : Item :=
  { i with item_name := u.item_name.getD i.item_name,
           item_type := u.item_type.getD i.item_type,
           item_quantity := u.item_quantity.getD i.item_quantity,
           row_num := u.row_num.getD i.row_num,
           item_imageURL := match u.item_imageURL with
                            | some url => some url
                            | none => i.item_imageURL }

/-- crud.py `update_item` (no file upload in the modelled calls). -/
def update_item (db : DB) (item_id : Nat) (item_data : ItemUpdate) :
    HRes Item × DB :=
  match get_item db item_id with
  | .err c d => (.err c d, db)
  | .ok i =>
    (.ok (applyItemUpdate item_data i),
     { db with items := replaceFirst (fun x => x.item_id == item_id)
                          (applyItemUpdate item_data) db.items })

/-- crud.py `delete_item`: when the row has a truthy image URL and the
file exists it is removed from the image store, then the row is deleted;
a missing file is skipped (`os.path.exists` guard) and never blocks the
row delete.  The item cache is not touched. -/
def delete_item (db : DB) (fs : List String) (item_id : Nat) :
    HRes String × DB × List String :=
  match get_item db item_id with
  | .err c d => (.err c d, db, fs)
  | .ok i =>
    let fs2 :=
      if truthyStr i.item_imageURL then
        let image_path := path_join ITEM_IMAGE_DIR (basename (i.item_imageURL.getD ""))
        if fs.contains image_path then fs.erase image_path else fs
      else fs
    (.ok "Item and its image deleted successfully",
     { db with items := db.items.erase i }, fs2)

end crud

namespace crud

/-- crud.py `CHO`: the 19 Hangul initial consonants, as code points. -/
def CHO : List Nat :=
  ['ㄱ', 'ㄲ', 'ㄴ', 'ㄷ', 'ㄸ', 'ㄹ', 'ㅁ', 'ㅂ', 'ㅃ', 'ㅅ', 'ㅆ', 'ㅇ', 'ㅈ', 'ㅉ',
   'ㅊ', 'ㅋ', 'ㅌ', 'ㅍ', 'ㅎ'].map Char.toNat

/-- A Python string as its sequence of code points. -/
def codes (s : String) : List Nat := s.data.map Char.toNat

/-- Code point of the first precomposed Hangul syllable (U+AC00). -/
def GA : Nat := 0xAC00

/-- Code point of the last precomposed Hangul syllable (U+D7A3). -/
def HIH : Nat := 0xD7A3

/-- One step of crud.py `get_initial`: a precomposed syllable contributes
its initial consonant, any other character is kept as is. -/
def initialOfCode (n : Nat) : List Nat :=
  if GA ≤ n ∧ n ≤ HIH then [CHO.getD ((n - GA) / 588) 0]
  else [n]

/-- crud.py `get_initial` over code points. -/
def get_initial (s : List Nat) : List Nat := s.flatMap initialOfCode

/-- crud.py `get_chosung_range`: the 21*28 syllables carrying the given
initial consonant. -/
def get_chosung_range (chosung : Nat) : List Nat :=
  let start_code := GA + (CHO.indexOf chosung) * 588
  (List.range 21).flatMap (fun i => (List.range 28).map (fun j => start_code + i * 28 + j))

/-- ASCII case folding of a code point, as SQL `ILIKE` applies it. -/
def lowerCode (n : Nat) : Nat := if 65 ≤ n ∧ n ≤ 90 then n + 32 else n

/-- SQL `col ILIKE 'pat%'`. -/
def likeStarts (pat s : List Nat) : Bool :=
  (pat.map lowerCode).isPrefixOf (s.map lowerCode)

/-- Contiguous-subsequence test on code points (Python's `in` on
strings). -/
def hasSub (p : List Nat) : List Nat → Bool
  | [] => p.isPrefixOf []
  | c :: t => p.isPrefixOf (c :: t) || hasSub p (t)

/-- SQL `col ILIKE '%pat%'`. -/
def likeHas (pat s : List Nat) : Bool :=
  hasSub (pat.map lowerCode) (s.map lowerCode)

/-- crud.py `get_item_list`: a one-character consonant query is expanded
to an `OR` of 588 syllable-prefix patterns (no union with substring
matches); any other query is a substring search; either way the result
is post-filtered to items whose initial signature contains the query's
initial signature. -/
def get_item_list (db : DB) (item_name : String) : List Item :=
  let q := codes item_name
  let item_initial := get_initial q
  let items : List Item :=
    match q with
    | [c] =>
      if CHO.contains c then
        let chosung_range := get_chosung_range c
        db.items.filter (fun it =>
          chosung_range.any (fun syl => likeStarts [syl] (codes it.item_name)))
      else
        db.items.filter (fun it => likeHas q (codes it.item_name))
    | _ => db.items.filter (fun it => likeHas q (codes it.item_name))
  items.filter (fun it => hasSub item_initial (get_initial (codes it.item_name)))

end crud

namespace storage_router

/-- storage_router.py `read_user_storage_space` (GET
/\x7buser_no\x7d/spaces/\x7barea_no\x7d): the path user must equal the
principal, then the area is looked up among that user's owned areas. -/
def read_user_storage_space (db : DB) (user_no area_no : Nat) (current_user : Nat) :
    HRes Storage_Area :=
  if user_no != current_user then
    .err 403 "You do not have permission to access this storage space."
  else crud.get_user_storage_space db user_no area_no

/-- storage_router.py `load_user_storage_space` (GET /\x7buser_no\x7d/spaces). -/
def load_user_storage_space (db : DB) (user_no : Nat) (current_user : Nat) :
    HRes (List Storage_Area) :=
  if user_no != current_user then
    .err 403 "You do not have permission to access this storage space."
  else crud.load_user_storage_space db user_no

/-- storage_router.py `update_user_storage_space`. -/
def update_user_storage_space (db : DB) (user_no area_no : Nat) (area_name : String)
    (current_user : Nat) : HRes Storage_Area × DB :=
  if user_no != current_user then
    (.err 403 "You do not have permission to update this storage space.", db)
  else crud.update_storage_space db user_no area_no area_name

/-- storage_router.py `delete_user_storage_space`: path-user check, then
the rooms guard, then the crud delete. -/
def delete_user_storage_space (db : DB) (user_no area_no : Nat) (current_user : Nat) :
    HRes String × DB :=
  if user_no != current_user then
    (.err 403 "You do not have permission to delete this storage space.", db)
  else
    let rooms := crud.get_rooms_by_area db area_no
    if !rooms.isEmpty then
      (.err 400 "Cannot delete storage area because rooms are associated with it. Please remove rooms first.", db)
    else crud.delete_storage_space db user_no area_no

/-- storage_router.py `read_room`: 404 when absent, then 403 unless the
room's area is among the principal's areas. -/
def read_room (db : DB) (room_no : Nat) (current_user : Nat) : HRes Storage_Room :=
  match crud.get_room db room_no with
  | none => .err 404 "Room not found"
  | some room =>
    if !(((crud.get_areas_by_user db current_user).map (fun a => a.area_no)).contains room.area_no) then
      .err 403 "You do not have permission to access this room."
    else .ok room

/-- storage_router.py `read_rooms_by_area`. -/
def read_rooms_by_area (db : DB) (area_no : Nat) (current_user : Nat) :
    HRes (List Storage_Room) :=
  if !(((crud.get_areas_by_user db current_user).map (fun a => a.area_no)).contains area_no) then
    .err 403 "You do not have permission to access rooms in this area."
  else
    let rooms := crud.get_rooms_by_area db area_no
    .ok (if rooms.isEmpty then [] else rooms)

/-- storage_router.py `update_room`. -/
def update_room (db : DB) (room_no : Nat) (room_data : RoomUpdate) (current_user : Nat) :
    HRes Storage_Room × DB :=
  match crud.get_room db room_no with
  | none => (.err 404 "Room not found", db)
  | some room =>
    if !(((crud.get_areas_by_user db current_user).map (fun a => a.area_no)).contains room.area_no) then
      (.err 403 "You do not have permission to update this room.", db)
    else crud.update_room db room_no room_data

/-- storage_router.py `delete_room`: 404, then the ownership check, then
the furniture guard, then the crud delete. -/
def delete_room (db : DB) (room_no : Nat) (current_user : Nat) : HRes String × DB :=
  match crud.get_room db room_no with
  | none => (.err 404 "Room not found", db)
  | some room =>
    if !(((crud.get_areas_by_user db current_user).map (fun a => a.area_no)).contains room.area_no) then
      (.err 403 "You do not have permission to delete this room.", db)
    else
      let storages := crud.get_storages_by_room db room_no
      if !storages.isEmpty then
        (.err 400 "Cannot delete room because furniture is associated with it. Please remove furniture first.", db)
      else crud.delete_room db room_no

/-- storage_router.py `read_storage`: 404 when absent, then 403 unless
the furniture's room is among the principal's rooms. -/
def read_storage (db : DB) (storage_no : Nat) (current_user : Nat) : HRes Storage_Storage :=
  match crud.get_storage db storage_no with
  | .err c d => .err c d
  | .ok db_storage =>
    if !(((crud.get_rooms_by_user db current_user).map (fun r => r.room_no)).contains db_storage.room_no) then
      .err 403 "You do not have permission to access this furniture."
    else .ok db_storage

/-- storage_router.py `get_storages_by_room`: the furniture query runs
first, then the room-ownership check. -/
def get_storages_by_room (db : DB) (room_no : Nat) (current_user : Nat) :
    HRes (List Storage_Storage) :=
  let storages := crud.get_storages_by_room db room_no
  if !(((crud.get_rooms_by_user db current_user).map (fun r => r.room_no)).contains room_no) then
    .err 403 "You do not have permission to access this room."
  else .ok (if storages.isEmpty then [] else storages)

/-- storage_router.py `update_storage`. -/
def update_storage (db : DB) (storage_no : Nat) (storage_data : StorageUpdate)
    (current_user : Nat) : HRes Storage_Storage × DB :=
  match crud.get_storage db storage_no with
  | .err c d => (.err c d, db)
  | .ok db_storage =>
    if !(((crud.get_rooms_by_user db current_user).map (fun r => r.room_no)).contains db_storage.room_no) then
      (.err 403 "You do not have permission to update this furniture.", db)
    else crud.update_storage db storage_no storage_data

/-- storage_router.py `delete_storage`: existence check, then the items
guard via `get_items_by_storage` (which consults the Redis cache) — note
there is no ownership check on this route, `current_user` is never
compared against the chain. -/
def delete_storage (db : DB) (cache : Cache) (storage_no : Nat) (current_user : Nat) :
    HRes String × DB × Cache :=
  match crud.get_storage db storage_no with
  | .err c d => (.err c d, db, cache)
  | .ok _ =>
    let r := crud.get_items_by_storage db cache storage_no
    if r.1.truthy then
      (.err 400 "Cannot delete storage because items are associated with it. Please remove items first.", db, r.2)
    else
      let d := crud.delete_storage db storage_no
      (d.1, d.2, r.2)

/-- storage_router.py `read_item`: 404 when absent, 404 from the
furniture lookup, then the room-ownership check (its 403 detail says
"update" in the source). -/
def read_item (db : DB) (item_id : Nat) (current_user : Nat) : HRes Item :=
  match crud.get_item db item_id with
  | .err c d => .err c d
  | .ok db_item =>
    match crud.get_storage db db_item.storage_no with
    | .err c d => .err c d
    | .ok storage =>
      if !(((crud.get_rooms_by_user db current_user).map (fun r => r.room_no)).contains storage.room_no) then
        .err 403 "You do not have permission to update this item."
      else .ok db_item

/-- storage_router.py `get_items_by_storage_route`: existence, ownership,
then the (cache-backed) item listing; an empty listing is returned as an
empty list. -/
def get_items_by_storage_route (db : DB) (cache : Cache) (storage_no : Nat)
    (current_user : Nat) : HRes ItemsResult × Cache :=
  match crud.get_storage db storage_no with
  | .err c d => (.err c d, cache)
  | .ok storage =>
    if !(((crud.get_rooms_by_user db current_user).map (fun r => r.room_no)).contains storage.room_no) then
      (.err 403 "You do not have permission to access items in this storage.", cache)
    else
      let r := crud.get_items_by_storage db cache storage_no
      (.ok (if r.1.truthy then r.1 else ItemsResult.fromDb []), r.2)

/-- storage_router.py `update_item_route`. -/
def update_item_route (db : DB) (item_id : Nat) (item : ItemUpdate) (current_user : Nat) :
    HRes Item × DB :=
  match crud.get_item db item_id with
  | .err c d => (.err c d, db)
  | .ok db_item =>
    match crud.get_storage db db_item.storage_no with
    | .err c d => (.err c d, db)
    | .ok storage =>
      if !(((crud.get_rooms_by_user db current_user).map (fun r => r.room_no)).contains storage.room_no) then
        (.err 403 "You do not have permission to update this item.", db)
      else crud.update_item db item_id item

/-- storage_router.py `delete_item`: existence, furniture lookup,
room-ownership check (403), then the crud delete with its image
side effect. -/
def delete_item (db : DB) (fs : List String) (item_id : Nat) (current_user : Nat) :
    HRes String × DB × List String :=
  match crud.get_item db item_id with
  | .err c d => (.err c d, db, fs)
  | .ok db_item =>
    match crud.get_storage db db_item.storage_no with
    | .err c d => (.err c d, db, fs)
    | .ok storage =>
      if !(((crud.get_rooms_by_user db current_user).map (fun r => r.room_no)).contains storage.room_no) then
        (.err 403 "You do not have permission to update this item.", db, fs)
      else crud.delete_item db fs item_id

end storage_router

namespace user_router

/-- A Python exception value as it crosses the `try`/`except` in
`create_user_route`. -/
inductive PyExc where
  | http : Nat → String → PyExc
deriving DecidableEq

/-- `str(e)` for the caught exception. -/
def excMsg : PyExc → String
  | .http s d => toString s ++ ": " ++ d

/-- The `try` body of user_router.py `create_user_route`: duplicate email
or phone raises `HTTPException(400)`, otherwise the user row is inserted
and the verification email is sent.  Emails are logged as
(address, code) pairs. -/
def create_user_body (db : DB) (user : UserCreate) (verification_code : String) :
    Except PyExc (MemberUser × DB × List (String × String)) :=
  if (crud.get_user_by_email db user.email).isSome
      || (crud.get_user_by_phone db user.cell_phone).isSome then
    .error (.http 400 "User already registered")
  else
    let r := crud.create_user db user verification_code
    .ok (r.1, r.2, [(user.email, verification_code)])

/-- user_router.py `create_user_route`: the blanket `except Exception`
catches the `HTTPException(400)` raised for duplicates, rolls back, and
re-raises it as a 500 with the stringified exception as detail. -/
def create_user_route (db : DB) (user : UserCreate) (verification_code : String) :
    HRes MemberUser × DB × List (String × String) :=
  match create_user_body db user verification_code with
  | .error e => (.err 500 (excMsg e), db, [])
  | .ok (u, db2, mails) => (.ok u, db2, mails)

end user_router

/-! ## Generic lemmas about the store primitives -/

/-- SQLAlchemy `.first()` under a primary-key uniqueness hypothesis:
filtering for a key held by `a` and taking the head yields `a`. -/
theorem head_filter_eq_of_mem {α : Type} (p : α → Bool) (l : List α) (a : α)
    (ha : a ∈ l) (hpa : p a = true) (huniq : ∀ x ∈ l, p x = true → x = a) :
    (l.filter p).head? = some a := by
  induction l with
  | nil => cases ha
  | cons b t ih =>
    by_cases hb : p b = true
    · have hba : b = a := huniq b (List.mem_cons_self b t) hb
      subst hba
      simp [List.filter_cons_of_pos hb]
    · have hb' : p b = false := by
        cases hpb : p b with
        | false => rfl
        | true => exact absurd hpb hb
      have hat : a ∈ t := by
        rcases List.mem_cons.mp ha with h | h
        · exact absurd (h ▸ hpa) hb
        · exact h
      rw [List.filter_cons_of_neg (by simp [hb'])]
      exact ih hat (fun x hx hpx => huniq x (List.mem_cons_of_mem b hx) hpx)

/-- A list whose filter has a known member is not filtered to empty. -/
theorem filter_not_isEmpty_of_mem {α : Type} (p : α → Bool) (l : List α) (a : α)
    (ha : a ∈ l) (hpa : p a = true) : (l.filter p).isEmpty = false := by
  cases hf : (l.filter p).isEmpty with
  | false => rfl
  | true =>
    have : l.filter p = [] := List.isEmpty_iff.mp hf
    have := List.filter_eq_nil_iff.mp this a ha
    simp [hpa] at this

/-- Membership of a projected key in a filtered row list. -/
theorem map_filter_contains {α : Type} (p : α → Bool) (f : α → Nat) (l : List α) (a : α)
    (ha : a ∈ l) (hpa : p a = true) :
    ((l.filter p).map f).contains (f a) = true :=
  List.elem_iff.mpr (List.mem_map.mpr ⟨a, List.mem_filter.mpr ⟨ha, hpa⟩, rfl⟩)

/-- Absence of a projected key from a filtered row list. -/
theorem map_filter_not_contains {α : Type} (p : α → Bool) (f : α → Nat) (l : List α) (n : Nat)
    (h : ∀ x ∈ l, p x = true → f x ≠ n) :
    ((l.filter p).map f).contains n = false := by
  cases hc : ((l.filter p).map f).contains n with
  | false => rfl
  | true =>
    obtain ⟨x, hx, hxn⟩ := List.mem_map.mp (List.elem_iff.mp hc)
    have hm := List.mem_filter.mp hx
    exact absurd hxn (h x hm.1 hm.2)

/-- `replaceFirst` leaves a list alone when nothing satisfies the
predicate prefix; used for rows appended after existing rows. -/
theorem replaceFirst_append {α : Type} (p : α → Bool) (f : α → α) (l1 l2 : List α)
    (h : ∀ x ∈ l1, p x = false) :
    replaceFirst p f (l1 ++ l2) = l1 ++ replaceFirst p f l2 := by
  induction l1 with
  | nil => rfl
  | cons b t ih =>
    have hb := h b (List.mem_cons_self b t)
    simp only [List.cons_append, replaceFirst, hb]
    simp only [Bool.false_eq_true, if_false, List.cons.injEq, true_and]
    exact ih (fun x hx => h x (List.mem_cons_of_mem b hx))

/-! ## Ownership-chain scenario -/

/-- The rows and primary-key facts describing a full
Area→Room→Furniture→Item containment chain whose owner is user `U`:
each row is present, each child references its parent, and each key is
unique in its table (the primary-key invariant of the store). -/
@[reducible] def ChainOwned (db : DB) (U : Nat) (a : Storage_Area) (r : Storage_Room)
    (st : Storage_Storage) (it : Item) : Prop :=
  a ∈ db.areas ∧ a.user_no = U ∧ a.storage_owner = true ∧
  (∀ x ∈ db.areas, x.area_no = a.area_no → x = a) ∧
  r ∈ db.rooms ∧ r.area_no = a.area_no ∧
  (∀ x ∈ db.rooms, x.room_no = r.room_no → x = r) ∧
  st ∈ db.storages ∧ st.room_no = r.room_no ∧
  (∀ x ∈ db.storages, x.storage_no = st.storage_no → x = st) ∧
  it ∈ db.items ∧ it.storage_no = st.storage_no ∧
  (∀ x ∈ db.items, x.item_id = it.item_id → x = it)

theorem chain_read_area (db : DB) (U : Nat) (a : Storage_Area) (r : Storage_Room)
    (st : Storage_Storage) (it : Item) (h : ChainOwned db U a r st it) :
    crud.get_user_storage_space db U a.area_no = .ok a := by
  obtain ⟨ha, haU, haOwn, haK, -, -, -, -, -, -, -, -, -⟩ := h
  have hh : (db.areas.filter fun x =>
      x.user_no == U && x.area_no == a.area_no && x.storage_owner).head? = some a := by
    refine head_filter_eq_of_mem _ _ a ha (by simp [haU, haOwn]) ?_
    intro x hx hpx
    simp only [Bool.and_eq_true, beq_iff_eq] at hpx
    exact haK x hx hpx.1.2
  simp [crud.get_user_storage_space, hh]

theorem chain_area_head_upd (db : DB) (U : Nat) (a : Storage_Area) (r : Storage_Room)
    (st : Storage_Storage) (it : Item) (h : ChainOwned db U a r st it) :
    (db.areas.filter fun x => x.user_no == U && x.area_no == a.area_no).head? = some a := by
  obtain ⟨ha, haU, -, haK, -, -, -, -, -, -, -, -, -⟩ := h
  refine head_filter_eq_of_mem _ _ a ha (by simp [haU]) ?_
  intro x hx hpx
  simp only [Bool.and_eq_true, beq_iff_eq] at hpx
  exact haK x hx hpx.2

theorem chain_get_room (db : DB) (U : Nat) (a : Storage_Area) (r : Storage_Room)
    (st : Storage_Storage) (it : Item) (h : ChainOwned db U a r st it) :
    crud.get_room db r.room_no = some r := by
  obtain ⟨-, -, -, -, hr, -, hrK, -, -, -, -, -, -⟩ := h
  unfold crud.get_room
  refine head_filter_eq_of_mem _ _ r hr (by simp) ?_
  intro x hx hpx
  simp only [beq_iff_eq] at hpx
  exact hrK x hx hpx

theorem chain_get_storage (db : DB) (U : Nat) (a : Storage_Area) (r : Storage_Room)
    (st : Storage_Storage) (it : Item) (h : ChainOwned db U a r st it) :
    crud.get_storage db st.storage_no = .ok st := by
  obtain ⟨-, -, -, -, -, -, -, hs, -, hsK, -, -, -⟩ := h
  have hh : (db.storages.filter fun x => x.storage_no == st.storage_no).head? = some st := by
    refine head_filter_eq_of_mem _ _ st hs (by simp) ?_
    intro x hx hpx
    simp only [beq_iff_eq] at hpx
    exact hsK x hx hpx
  simp [crud.get_storage, hh]

theorem chain_get_item (db : DB) (U : Nat) (a : Storage_Area) (r : Storage_Room)
    (st : Storage_Storage) (it : Item) (h : ChainOwned db U a r st it) :
    crud.get_item db it.item_id = .ok it := by
  obtain ⟨-, -, -, -, -, -, -, -, -, -, hi, -, hiK⟩ := h
  have hh : (db.items.filter fun x => x.item_id == it.item_id).head? = some it := by
    refine head_filter_eq_of_mem _ _ it hi (by simp) ?_
    intro x hx hpx
    simp only [beq_iff_eq] at hpx
    exact hiK x hx hpx
  simp [crud.get_item, hh]

theorem chain_area_stranger_prop (db : DB) (U V : Nat) (a : Storage_Area) (r : Storage_Room)
    (st : Storage_Storage) (it : Item) (h : ChainOwned db U a r st it) (hV : V ≠ U) :
    ∀ x ∈ crud.get_areas_by_user db V, ¬x.area_no = r.area_no := by
  obtain ⟨-, haU, -, haK, -, hrA, -, -, -, -, -, -, -⟩ := h
  intro x hx hxn
  simp only [crud.get_areas_by_user, List.mem_filter, beq_iff_eq] at hx
  have hxa : x = a := haK x hx.1 (hxn.trans hrA)
  have h1 : x.user_no = U := hxa ▸ haU
  exact hV (hx.2.symm.trans h1)

theorem chain_area_owner_mem (db : DB) (U : Nat) (a : Storage_Area) (r : Storage_Room)
    (st : Storage_Storage) (it : Item) (h : ChainOwned db U a r st it) :
    a ∈ crud.get_areas_by_user db U ∧ a.area_no = r.area_no := by
  obtain ⟨ha, haU, -, -, -, hrA, -, -, -, -, -, -, -⟩ := h
  refine ⟨?_, hrA.symm⟩
  simp only [crud.get_areas_by_user, List.mem_filter, beq_iff_eq]
  exact ⟨ha, haU⟩

theorem chain_area_owner_exists (db : DB) (U : Nat) (a : Storage_Area) (r : Storage_Room)
    (st : Storage_Storage) (it : Item) (h : ChainOwned db U a r st it) :
    ∃ x ∈ crud.get_areas_by_user db U, x.area_no = r.area_no :=
  ⟨a, (chain_area_owner_mem db U a r st it h).1, (chain_area_owner_mem db U a r st it h).2⟩

theorem chain_area_owner_notforall (db : DB) (U : Nat) (a : Storage_Area) (r : Storage_Room)
    (st : Storage_Storage) (it : Item) (h : ChainOwned db U a r st it) :
    ¬∀ x ∈ crud.get_areas_by_user db U, ¬x.area_no = r.area_no := fun hf =>
  hf a (chain_area_owner_mem db U a r st it h).1 (chain_area_owner_mem db U a r st it h).2

theorem chain_room_stranger_prop (db : DB) (U V : Nat) (a : Storage_Area) (r : Storage_Room)
    (st : Storage_Storage) (it : Item) (h : ChainOwned db U a r st it) (hV : V ≠ U) :
    ∀ x ∈ crud.get_rooms_by_user db V, ¬x.room_no = st.room_no := by
  obtain ⟨-, haU, -, haK, -, hrA, hrK, -, hsR, -, -, -, -⟩ := h
  intro x hx hxn
  simp only [crud.get_rooms_by_user, List.mem_filter] at hx
  have hxr : x = r := hrK x hx.1 (hxn.trans hsR)
  subst hxr
  obtain ⟨y, hy, hyp⟩ := List.any_eq_true.mp hx.2
  simp only [Bool.and_eq_true, beq_iff_eq] at hyp
  have hya : y = a := haK y hy (hyp.1.symm.trans hrA)
  exact hV ((hya ▸ hyp.2).symm.trans haU)

theorem chain_room_owner_mem (db : DB) (U : Nat) (a : Storage_Area) (r : Storage_Room)
    (st : Storage_Storage) (it : Item) (h : ChainOwned db U a r st it) :
    r ∈ crud.get_rooms_by_user db U ∧ r.room_no = st.room_no := by
  obtain ⟨ha, haU, -, -, hr, hrA, -, -, hsR, -, -, -, -⟩ := h
  refine ⟨?_, hsR.symm⟩
  simp only [crud.get_rooms_by_user, List.mem_filter]
  exact ⟨hr, List.any_eq_true.mpr ⟨a, ha, by simp [hrA, haU]⟩⟩

theorem chain_room_owner_exists (db : DB) (U : Nat) (a : Storage_Area) (r : Storage_Room)
    (st : Storage_Storage) (it : Item) (h : ChainOwned db U a r st it) :
    ∃ x ∈ crud.get_rooms_by_user db U, x.room_no = st.room_no :=
  ⟨r, (chain_room_owner_mem db U a r st it h).1, (chain_room_owner_mem db U a r st it h).2⟩

theorem chain_room_owner_notforall (db : DB) (U : Nat) (a : Storage_Area) (r : Storage_Room)
    (st : Storage_Storage) (it : Item) (h : ChainOwned db U a r st it) :
    ¬∀ x ∈ crud.get_rooms_by_user db U, ¬x.room_no = st.room_no := fun hf =>
  hf r (chain_room_owner_mem db U a r st it h).1 (chain_room_owner_mem db U a r st it h).2

theorem chain_rooms_by_area_ne (db : DB) (U : Nat) (a : Storage_Area) (r : Storage_Room)
    (st : Storage_Storage) (it : Item) (h : ChainOwned db U a r st it) :
    (crud.get_rooms_by_area db a.area_no).isEmpty = false := by
  obtain ⟨-, -, -, -, hr, hrA, -, -, -, -, -, -, -⟩ := h
  unfold crud.get_rooms_by_area
  exact filter_not_isEmpty_of_mem _ _ r hr (by simp [hrA])

theorem chain_storages_by_room_ne (db : DB) (U : Nat) (a : Storage_Area) (r : Storage_Room)
    (st : Storage_Storage) (it : Item) (h : ChainOwned db U a r st it) :
    (crud.get_storages_by_room db r.room_no).isEmpty = false := by
  obtain ⟨-, -, -, -, -, -, -, hs, hsR, -, -, -, -⟩ := h
  unfold crud.get_storages_by_room
  exact filter_not_isEmpty_of_mem _ _ st hs (by simp [hsR])

theorem chain_items_filter_ne (db : DB) (U : Nat) (a : Storage_Area) (r : Storage_Room)
    (st : Storage_Storage) (it : Item) (h : ChainOwned db U a r st it) :
    (db.items.filter fun x => x.storage_no == st.storage_no).isEmpty = false := by
  obtain ⟨-, -, -, -, -, -, -, -, -, -, hi, hiS, -⟩ := h
  exact filter_not_isEmpty_of_mem _ _ it hi (by simp [hiS])

/-! ## Claim C1: ownership-scoped authorization on every route -/

/-- The route-by-route outcomes that actually hold for a chain owned by
`U` and a stranger `V`: every read and update, and the Area, Room and
Item deletes, answer 403 to `V` and succeed (or hit the dependent guard,
400, never 403) for `U`; the Furniture delete route answers `V` exactly
as it answers `U`, with no Forbidden outcome at all. -/
def C1Outcomes (db : DB) (cache : Cache) (fs : List String) (U V : Nat)
    (a : Storage_Area) (r : Storage_Room) (st : Storage_Storage) (it : Item) : Prop :=
  storage_router.read_user_storage_space db U a.area_no V =
    .err 403 "You do not have permission to access this storage space." ∧
  storage_router.read_user_storage_space db U a.area_no U = .ok a ∧
  (storage_router.update_user_storage_space db U a.area_no "renamed" V).1 =
    .err 403 "You do not have permission to update this storage space." ∧
  (storage_router.update_user_storage_space db U a.area_no "renamed" U).1 =
    .ok { a with area_name := "renamed" } ∧
  (storage_router.delete_user_storage_space db U a.area_no V).1 =
    .err 403 "You do not have permission to delete this storage space." ∧
  (storage_router.delete_user_storage_space db U a.area_no U).1 =
    .err 400 "Cannot delete storage area because rooms are associated with it. Please remove rooms first." ∧
  storage_router.read_room db r.room_no V =
    .err 403 "You do not have permission to access this room." ∧
  storage_router.read_room db r.room_no U = .ok r ∧
  (storage_router.update_room db r.room_no ⟨none⟩ V).1 =
    .err 403 "You do not have permission to update this room." ∧
  (storage_router.update_room db r.room_no ⟨none⟩ U).1 = .ok r ∧
  (storage_router.delete_room db r.room_no V).1 =
    .err 403 "You do not have permission to delete this room." ∧
  (storage_router.delete_room db r.room_no U).1 =
    .err 400 "Cannot delete room because furniture is associated with it. Please remove furniture first." ∧
  storage_router.read_storage db st.storage_no V =
    .err 403 "You do not have permission to access this furniture." ∧
  storage_router.read_storage db st.storage_no U = .ok st ∧
  (storage_router.update_storage db st.storage_no ⟨none, none⟩ V).1 =
    .err 403 "You do not have permission to update this furniture." ∧
  (storage_router.update_storage db st.storage_no ⟨none, none⟩ U).1 = .ok st ∧
  (storage_router.delete_storage db cache st.storage_no V).1 =
    .err 400 "Cannot delete storage because items are associated with it. Please remove items first." ∧
  (storage_router.delete_storage db cache st.storage_no U).1 =
    .err 400 "Cannot delete storage because items are associated with it. Please remove items first." ∧
  storage_router.read_item db it.item_id V =
    .err 403 "You do not have permission to update this item." ∧
  storage_router.read_item db it.item_id U = .ok it ∧
  (storage_router.update_item_route db it.item_id ⟨none, none, none, none, none⟩ V).1 =
    .err 403 "You do not have permission to update this item." ∧
  (storage_router.update_item_route db it.item_id ⟨none, none, none, none, none⟩ U).1 = .ok it ∧
  (storage_router.delete_item db fs it.item_id V).1 =
    .err 403 "You do not have permission to update this item." ∧
  (storage_router.delete_item db fs it.item_id U).1 = .ok "Item and its image deleted successfully"

/-- A store holding the chain area 10 → room 20 → furniture 30 (no
items), owned by user 1; user 2 owns nothing. -/
def c1dbA : DB :=
  { users := [], profiles := [],
    areas := [⟨10, 1, "A", true⟩], rooms := [⟨20, 10, "R"⟩],
    storages := [⟨30, 20, "S", 1⟩], items := [],
    next_user_no := 3, next_area_no := 11 }

/-- The empty cache. -/
def emptyCache : Cache := ⟨[], [], []⟩

/-- C1 counterexample: user 2 owns nothing (the chain of furniture 30
resolves to user 1), yet user 2's delete request on furniture 30 is not
denied with Forbidden — it succeeds and removes the row, because
`delete_storage` never checks ownership. -/
theorem c1_counterexample :
    crud.get_areas_by_user c1dbA 2 = [] ∧
    crud.get_rooms_by_user c1dbA 1 = [⟨20, 10, "R"⟩] ∧
    (storage_router.delete_storage c1dbA emptyCache 30 2).1 =
      .ok "Storage deleted successfully" ∧
    (storage_router.delete_storage c1dbA emptyCache 30 2).2.1.storages = [] := by
  decide

/-- C1 (amended): for a containment chain owned by `U` and any principal
`V ≠ U`, all reads and updates and the Area/Room/Item deletes answer 403
Forbidden to `V` while `U`'s reads and updates succeed and `U` is never
answered 403 (deletes of parents with children yield 400); the Furniture
delete route, which has no ownership check, answers `V` exactly as it
answers `U` (the item guard's 400 here), never 403. -/
theorem c1_ownership_routes (db : DB) (cache : Cache) (fs : List String) (U V : Nat)
    (a : Storage_Area) (r : Storage_Room) (st : Storage_Storage) (it : Item)
    (h : ChainOwned db U a r st it) (hV : V ≠ U)
    (hcache : cacheGet cache.itemCache st.storage_no = none) :
    C1Outcomes db cache fs U V a r st it := by
  have hUV : U ≠ V := Ne.symm hV
  obtain ⟨ha, haU, haOwn, haK, hr, hrA, hrK, hs, hsR, hsK, hi, hiS, hiK⟩ := h
  have hch : ChainOwned db U a r st it :=
    ⟨ha, haU, haOwn, haK, hr, hrA, hrK, hs, hsR, hsK, hi, hiS, hiK⟩
  refine ⟨?_, ?_, ?_, ?_, ?_, ?_, ?_, ?_, ?_, ?_, ?_, ?_, ?_, ?_, ?_, ?_, ?_, ?_,
          ?_, ?_, ?_, ?_, ?_, ?_⟩
  · simp [storage_router.read_user_storage_space, hUV]
  · simp [storage_router.read_user_storage_space,
          chain_read_area db U a r st it hch]
  · simp [storage_router.update_user_storage_space, hUV]
  · simp [storage_router.update_user_storage_space, crud.update_storage_space,
          chain_area_head_upd db U a r st it hch]
  · simp [storage_router.delete_user_storage_space, hUV]
  · simp [storage_router.delete_user_storage_space,
          chain_rooms_by_area_ne db U a r st it hch]
  · simp [storage_router.read_room, chain_get_room db U a r st it hch]
    exact chain_area_stranger_prop db U V a r st it hch hV
  · simp [storage_router.read_room, chain_get_room db U a r st it hch,
          chain_area_owner_exists db U a r st it hch,
          chain_area_owner_notforall db U a r st it hch]
  · simp [storage_router.update_room, chain_get_room db U a r st it hch]
    rw [if_pos (chain_area_stranger_prop db U V a r st it hch hV)]
  · simp [storage_router.update_room, chain_get_room db U a r st it hch,
          chain_area_owner_exists db U a r st it hch,
          chain_area_owner_notforall db U a r st it hch, crud.update_room, truthyStr]
  · simp [storage_router.delete_room, chain_get_room db U a r st it hch]
    rw [if_pos (chain_area_stranger_prop db U V a r st it hch hV)]
  · simp [storage_router.delete_room, chain_get_room db U a r st it hch,
          chain_area_owner_exists db U a r st it hch,
          chain_area_owner_notforall db U a r st it hch,
          chain_storages_by_room_ne db U a r st it hch]
  · simp [storage_router.read_storage, chain_get_storage db U a r st it hch]
    exact chain_room_stranger_prop db U V a r st it hch hV
  · simp [storage_router.read_storage, chain_get_storage db U a r st it hch,
          chain_room_owner_exists db U a r st it hch,
          chain_room_owner_notforall db U a r st it hch]
  · simp [storage_router.update_storage, chain_get_storage db U a r st it hch]
    rw [if_pos (chain_room_stranger_prop db U V a r st it hch hV)]
  · simp [storage_router.update_storage, chain_get_storage db U a r st it hch,
          chain_room_owner_exists db U a r st it hch,
          chain_room_owner_notforall db U a r st it hch, crud.update_storage,
          crud.applyStorageUpdate]
  · simp [storage_router.delete_storage, chain_get_storage db U a r st it hch,
          crud.get_items_by_storage, hcache, ItemsResult.truthy,
          chain_items_filter_ne db U a r st it hch]
  · simp [storage_router.delete_storage, chain_get_storage db U a r st it hch,
          crud.get_items_by_storage, hcache, ItemsResult.truthy,
          chain_items_filter_ne db U a r st it hch]
  · simp [storage_router.read_item, chain_get_item db U a r st it hch, hiS,
          chain_get_storage db U a r st it hch]
    exact chain_room_stranger_prop db U V a r st it hch hV
  · simp [storage_router.read_item, chain_get_item db U a r st it hch, hiS,
          chain_get_storage db U a r st it hch,
          chain_room_owner_exists db U a r st it hch,
          chain_room_owner_notforall db U a r st it hch]
  · simp [storage_router.update_item_route, chain_get_item db U a r st it hch, hiS,
          chain_get_storage db U a r st it hch]
    rw [if_pos (chain_room_stranger_prop db U V a r st it hch hV)]
  · simp [storage_router.update_item_route, chain_get_item db U a r st it hch, hiS,
          chain_get_storage db U a r st it hch,
          chain_room_owner_exists db U a r st it hch,
          chain_room_owner_notforall db U a r st it hch, crud.update_item,
          crud.applyItemUpdate]
    rw [← hiS]
  · simp [storage_router.delete_item, chain_get_item db U a r st it hch, hiS,
          chain_get_storage db U a r st it hch]
    rw [if_pos (chain_room_stranger_prop db U V a r st it hch hV)]
  · simp [storage_router.delete_item, chain_get_item db U a r st it hch, hiS,
          chain_get_storage db U a r st it hch,
          chain_room_owner_exists db U a r st it hch,
          chain_room_owner_notforall db U a r st it hch, crud.delete_item]

/-- A store holding the full chain area 10 → room 20 → furniture 30 →
item 40, owned by user 1. -/
def c1db : DB :=
  { users := [], profiles := [],
    areas := [⟨10, 1, "A", true⟩], rooms := [⟨20, 10, "R"⟩],
    storages := [⟨30, 20, "S", 1⟩],
    items := [⟨40, 30, "I", 1, some "/images/items/x.png", "misc", 1⟩],
    next_user_no := 3, next_area_no := 11 }

/-! ## Claim C2: deleting a parent with children is a Conflict and
changes nothing -/

/-- The three delete routes on a chain with at least one child at every
level: each returns the dependent-guard outcome (HTTP 400, the service's
Conflict) and returns the store unchanged, so the parent and all its
children remain present. -/
def C2Outcomes (db : DB) (cache : Cache) (U : Nat) (a : Storage_Area) (r : Storage_Room)
    (st : Storage_Storage) : Prop :=
  storage_router.delete_user_storage_space db U a.area_no U =
    (.err 400 "Cannot delete storage area because rooms are associated with it. Please remove rooms first.", db) ∧
  storage_router.delete_room db r.room_no U =
    (.err 400 "Cannot delete room because furniture is associated with it. Please remove furniture first.", db) ∧
  (storage_router.delete_storage db cache st.storage_no U).1 =
    .err 400 "Cannot delete storage because items are associated with it. Please remove items first." ∧
  (storage_router.delete_storage db cache st.storage_no U).2.1 = db

/-- C2: on a fully populated chain (the Area has a Room, the Room has a
Furniture, the Furniture has an Item) every parent delete by the owner
hits the dependent guard: HTTP 400 and an unchanged store. -/
theorem c2_delete_with_children_conflict (db : DB) (cache : Cache) (U : Nat)
    (a : Storage_Area) (r : Storage_Room) (st : Storage_Storage) (it : Item)
    (h : ChainOwned db U a r st it)
    (hcache : cacheGet cache.itemCache st.storage_no = none) :
    C2Outcomes db cache U a r st := by
  obtain ⟨ha, haU, haOwn, haK, hr, hrA, hrK, hs, hsR, hsK, hi, hiS, hiK⟩ := h
  have hch : ChainOwned db U a r st it :=
    ⟨ha, haU, haOwn, haK, hr, hrA, hrK, hs, hsR, hsK, hi, hiS, hiK⟩
  refine ⟨?_, ?_, ?_, ?_⟩
  · simp [storage_router.delete_user_storage_space,
          chain_rooms_by_area_ne db U a r st it hch]
  · simp [storage_router.delete_room, chain_get_room db U a r st it hch,
          chain_area_owner_exists db U a r st it hch,
          chain_area_owner_notforall db U a r st it hch,
          chain_storages_by_room_ne db U a r st it hch]
  · simp [storage_router.delete_storage, chain_get_storage db U a r st it hch,
          crud.get_items_by_storage, hcache, ItemsResult.truthy,
          chain_items_filter_ne db U a r st it hch]
  · simp [storage_router.delete_storage, chain_get_storage db U a r st it hch,
          crud.get_items_by_storage, hcache, ItemsResult.truthy,
          chain_items_filter_ne db U a r st it hch]

/-- Witness for `c2_delete_with_children_conflict` on the concrete chain
of `c1db`. -/
theorem c2_delete_with_children_conflict_witness :
    (ChainOwned c1db 1 ⟨10, 1, "A", true⟩ ⟨20, 10, "R"⟩ ⟨30, 20, "S", 1⟩
        ⟨40, 30, "I", 1, some "/images/items/x.png", "misc", 1⟩ ∧
      cacheGet emptyCache.itemCache 30 = none) ∧
    C2Outcomes c1db emptyCache 1 ⟨10, 1, "A", true⟩ ⟨20, 10, "R"⟩ ⟨30, 20, "S", 1⟩ :=
  ⟨⟨by decide, by decide⟩,
   c2_delete_with_children_conflict c1db emptyCache 1 ⟨10, 1, "A", true⟩ ⟨20, 10, "R"⟩
     ⟨30, 20, "S", 1⟩ ⟨40, 30, "I", 1, some "/images/items/x.png", "misc", 1⟩
     (by decide) (by decide)⟩

/-! ## Claim C3: item deletion always succeeds, removing the image
best-effort -/

/-- C3: deleting an existing Item by its chain owner succeeds regardless
of the rest of the state: the row is gone afterward, the attached image
file (when the reference is truthy) is no longer present in the image
store, and a removal that cannot happen because the file is already
absent (`os.path.exists` is false) is skipped without failing the
database delete — the same success outcome is returned whether or not
the file was there. -/
theorem c3_delete_item_total (db : DB) (fs : List String) (U : Nat)
    (a : Storage_Area) (r : Storage_Room) (st : Storage_Storage) (it : Item)
    (h : ChainOwned db U a r st it)
    (hnd : db.items.Nodup) (hfs : fs.Nodup) :
    (storage_router.delete_item db fs it.item_id U).1 =
      .ok "Item and its image deleted successfully" ∧
    (∀ x ∈ (storage_router.delete_item db fs it.item_id U).2.1.items,
      x.item_id ≠ it.item_id) ∧
    (truthyStr it.item_imageURL = true →
      path_join ITEM_IMAGE_DIR (basename (it.item_imageURL.getD "")) ∉
        (storage_router.delete_item db fs it.item_id U).2.2) := by
  obtain ⟨ha, haU, haOwn, haK, hr, hrA, hrK, hs, hsR, hsK, hi, hiS, hiK⟩ := h
  have hch : ChainOwned db U a r st it :=
    ⟨ha, haU, haOwn, haK, hr, hrA, hrK, hs, hsR, hsK, hi, hiS, hiK⟩
  have hroute : storage_router.delete_item db fs it.item_id U =
      crud.delete_item db fs it.item_id := by
    simp [storage_router.delete_item, chain_get_item db U a r st it hch, hiS,
          chain_get_storage db U a r st it hch,
          chain_room_owner_exists db U a r st it hch,
          chain_room_owner_notforall db U a r st it hch]
  have hdel : crud.delete_item db fs it.item_id =
      (.ok "Item and its image deleted successfully",
       { db with items := db.items.erase it },
       if truthyStr it.item_imageURL then
         (if fs.contains (path_join ITEM_IMAGE_DIR (basename (it.item_imageURL.getD ""))) then
            fs.erase (path_join ITEM_IMAGE_DIR (basename (it.item_imageURL.getD ""))) else fs)
       else fs) := by
    simp [crud.delete_item, chain_get_item db U a r st it hch]
  rw [hroute, hdel]
  refine ⟨rfl, ?_, ?_⟩
  · intro x hx hxid
    have hxit : x = it := hiK x (List.mem_of_mem_erase hx) hxid
    subst hxit
    exact (hnd.not_mem_erase) hx
  · intro htr
    cases hc : fs.contains (path_join ITEM_IMAGE_DIR (basename (it.item_imageURL.getD ""))) with
    | true => simpa [htr] using hfs.not_mem_erase
    | false =>
      intro hmem
      have hmem2 : path_join ITEM_IMAGE_DIR (basename (it.item_imageURL.getD "")) ∈ fs := by
        simpa [htr] using hmem
      have hct : fs.contains (path_join ITEM_IMAGE_DIR (basename (it.item_imageURL.getD ""))) = true :=
        List.elem_iff.mpr hmem2
      rw [hc] at hct
      cases hct

/-- Witness for `c3_delete_item_total` on the concrete chain of `c1db`,
with the referenced image file present in the image store. -/
theorem c3_delete_item_total_witness :
    (ChainOwned c1db 1 ⟨10, 1, "A", true⟩ ⟨20, 10, "R"⟩ ⟨30, 20, "S", 1⟩
        ⟨40, 30, "I", 1, some "/images/items/x.png", "misc", 1⟩ ∧
      c1db.items.Nodup ∧ ["app/images/items/x.png"].Nodup) ∧
    ((storage_router.delete_item c1db ["app/images/items/x.png"] 40 1).1 =
      .ok "Item and its image deleted successfully" ∧
    (∀ x ∈ (storage_router.delete_item c1db ["app/images/items/x.png"] 40 1).2.1.items,
      x.item_id ≠ 40) ∧
    (truthyStr (some "/images/items/x.png") = true →
      path_join ITEM_IMAGE_DIR (basename ((some "/images/items/x.png").getD "")) ∉
        (storage_router.delete_item c1db ["app/images/items/x.png"] 40 1).2.2)) :=
  ⟨⟨by decide, by decide, by decide⟩,
   c3_delete_item_total c1db ["app/images/items/x.png"] 1 ⟨10, 1, "A", true⟩
     ⟨20, 10, "R"⟩ ⟨30, 20, "S", 1⟩
     ⟨40, 30, "I", 1, some "/images/items/x.png", "misc", 1⟩
     (by decide) (by decide) (by decide)⟩

/-! ## Claim C7: Area create/read/update round-trip -/

/-- C7: creating an Area named "Garage" for user `U`, reading it back,
renaming it to "Shed" and reading again: the reads return the stored
name, and the row's key and owner are unchanged by the rename.  The
freshness hypothesis is the auto-increment invariant: no existing row
already carries the key the store will generate. -/
theorem c7_area_roundtrip (db : DB) (U : Nat)
    (hfresh : ∀ x ∈ db.areas, x.area_no ≠ db.next_area_no) :
    (crud.create_storage_space db U "Garage").1.area_name = "Garage" ∧
    (crud.create_storage_space db U "Garage").1.user_no = U ∧
    crud.get_user_storage_space (crud.create_storage_space db U "Garage").2 U
      (crud.create_storage_space db U "Garage").1.area_no =
      .ok (crud.create_storage_space db U "Garage").1 ∧
    (crud.update_storage_space (crud.create_storage_space db U "Garage").2 U
      (crud.create_storage_space db U "Garage").1.area_no "Shed").1 =
      .ok { (crud.create_storage_space db U "Garage").1 with area_name := "Shed" } ∧
    crud.get_user_storage_space
      (crud.update_storage_space (crud.create_storage_space db U "Garage").2 U
        (crud.create_storage_space db U "Garage").1.area_no "Shed").2 U
      (crud.create_storage_space db U "Garage").1.area_no =
      .ok { (crud.create_storage_space db U "Garage").1 with area_name := "Shed" } ∧
    ({ (crud.create_storage_space db U "Garage").1 with
        area_name := "Shed" } : Storage_Area).area_no =
      (crud.create_storage_space db U "Garage").1.area_no ∧
    ({ (crud.create_storage_space db U "Garage").1 with
        area_name := "Shed" } : Storage_Area).user_no = U := by
  have hA : crud.create_storage_space db U "Garage" =
      (⟨db.next_area_no, U, "Garage", true⟩,
       { db with areas := db.areas ++ [⟨db.next_area_no, U, "Garage", true⟩],
                 next_area_no := db.next_area_no + 1 }) := rfl
  rw [hA]
  have hold1 : db.areas.filter (fun x =>
      x.user_no == U && x.area_no == db.next_area_no && x.storage_owner) = [] :=
    List.filter_eq_nil_iff.mpr (fun x hx => by simp [hfresh x hx])
  have hold2 : db.areas.filter (fun x =>
      x.user_no == U && x.area_no == db.next_area_no) = [] :=
    List.filter_eq_nil_iff.mpr (fun x hx => by simp [hfresh x hx])
  have hold3 : ∀ x ∈ db.areas,
      (x.user_no == U && x.area_no == db.next_area_no) = false := by
    intro x hx
    simp [hfresh x hx]
  refine ⟨rfl, rfl, ?_, ?_, ?_, rfl, rfl⟩
  · simp [crud.get_user_storage_space, List.filter_append, hold1]
  · simp [crud.update_storage_space, List.filter_append, hold2]
  · simp only [crud.update_storage_space, List.filter_append, hold2]
    rw [replaceFirst_append _ _ _ _ hold3]
    simp [crud.get_user_storage_space, List.filter_append, hold1, replaceFirst]

/-- Witness for `c7_area_roundtrip` on the empty store and user 1. -/
theorem c7_area_roundtrip_witness :
    (∀ x ∈ (⟨[], [], [], [], [], [], 0, 0⟩ : DB).areas,
      x.area_no ≠ (⟨[], [], [], [], [], [], 0, 0⟩ : DB).next_area_no) ∧
    ((crud.create_storage_space ⟨[], [], [], [], [], [], 0, 0⟩ 1 "Garage").1.area_name = "Garage" ∧
     (crud.create_storage_space ⟨[], [], [], [], [], [], 0, 0⟩ 1 "Garage").1.user_no = 1 ∧
     crud.get_user_storage_space (crud.create_storage_space ⟨[], [], [], [], [], [], 0, 0⟩ 1 "Garage").2 1
       (crud.create_storage_space ⟨[], [], [], [], [], [], 0, 0⟩ 1 "Garage").1.area_no =
       .ok (crud.create_storage_space ⟨[], [], [], [], [], [], 0, 0⟩ 1 "Garage").1 ∧
     (crud.update_storage_space (crud.create_storage_space ⟨[], [], [], [], [], [], 0, 0⟩ 1 "Garage").2 1
       (crud.create_storage_space ⟨[], [], [], [], [], [], 0, 0⟩ 1 "Garage").1.area_no "Shed").1 =
       .ok { (crud.create_storage_space ⟨[], [], [], [], [], [], 0, 0⟩ 1 "Garage").1 with area_name := "Shed" } ∧
     crud.get_user_storage_space
       (crud.update_storage_space (crud.create_storage_space ⟨[], [], [], [], [], [], 0, 0⟩ 1 "Garage").2 1
         (crud.create_storage_space ⟨[], [], [], [], [], [], 0, 0⟩ 1 "Garage").1.area_no "Shed").2 1
       (crud.create_storage_space ⟨[], [], [], [], [], [], 0, 0⟩ 1 "Garage").1.area_no =
       .ok { (crud.create_storage_space ⟨[], [], [], [], [], [], 0, 0⟩ 1 "Garage").1 with area_name := "Shed" } ∧
     ({ (crud.create_storage_space ⟨[], [], [], [], [], [], 0, 0⟩ 1 "Garage").1 with
         area_name := "Shed" } : Storage_Area).area_no =
       (crud.create_storage_space ⟨[], [], [], [], [], [], 0, 0⟩ 1 "Garage").1.area_no ∧
     ({ (crud.create_storage_space ⟨[], [], [], [], [], [], 0, 0⟩ 1 "Garage").1 with
         area_name := "Shed" } : Storage_Area).user_no = 1) :=
  ⟨by decide, c7_area_roundtrip ⟨[], [], [], [], [], [], 0, 0⟩ 1 (by decide)⟩

/-! ## Claim C4: duplicate signup -/

/-- C4 (code-bug evidence): a signup whose email or phone is already
registered writes no row and sends no email, but terminates with HTTP
500, not a Conflict: the `HTTPException(400, "User already registered")`
raised inside the `try` is caught by the blanket `except Exception` and
re-raised as a 500. -/
theorem c4_duplicate_signup_500 (db : DB) (user : UserCreate) (code : String)
    (hdup : (crud.get_user_by_email db user.email).isSome = true ∨
            (crud.get_user_by_phone db user.cell_phone).isSome = true) :
    user_router.create_user_route db user code =
      (.err 500 (user_router.excMsg (.http 400 "User already registered")), db, []) := by
  unfold user_router.create_user_route user_router.create_user_body
  rcases hdup with h | h <;> simp [h]

/-- A store with one registered user. -/
def c4db : DB :=
  { users := [⟨1, "a@b.com", "hash", "Alice", "01000000000", "1990-01-01", "misc", false, none⟩],
    profiles := [], areas := [], rooms := [], storages := [], items := [],
    next_user_no := 2, next_area_no := 0 }

/-- Witness for `c4_duplicate_signup_500`: signing up again with the
registered email `a@b.com`. -/
theorem c4_duplicate_signup_500_witness :
    ((crud.get_user_by_email c4db
        (UserCreate.mk "a@b.com" "pw1234" "Bob" "01011112222" "1991-01-01" "misc").email).isSome = true ∨
      (crud.get_user_by_phone c4db
        (UserCreate.mk "a@b.com" "pw1234" "Bob" "01011112222" "1991-01-01" "misc").cell_phone).isSome = true) ∧
    user_router.create_user_route c4db
        (UserCreate.mk "a@b.com" "pw1234" "Bob" "01011112222" "1991-01-01" "misc") "123456" =
      (.err 500 (user_router.excMsg (.http 400 "User already registered")), c4db, []) :=
  ⟨Or.inl (by decide),
   c4_duplicate_signup_500 c4db
     (UserCreate.mk "a@b.com" "pw1234" "Bob" "01011112222" "1991-01-01" "misc") "123456"
     (Or.inl (by decide))⟩

/-! ## Claim C6: the item cache is never invalidated on writes -/

/-- C6 (code-bug evidence), on the chain of `c1db`: listing the items of
furniture 30 warms the cache; deleting item 40 (the furniture's only
item) through the route succeeds and leaves the table with no item in
storage 30, but the cache entry `item:30` still holds the serialized
item because no write ever deletes it; a subsequent owner delete of
furniture 30 trusts the stale cache hit and answers 400 Conflict even
though the store has zero dependents. -/
theorem c6_stale_cache_blocks_delete :
    cacheGet (crud.get_items_by_storage c1db emptyCache 30).2.itemCache 30 =
      some [⟨40, "I", 1, some "/images/items/x.png", "misc", 1⟩] ∧
    (storage_router.delete_item c1db [] 40 1).1 =
      .ok "Item and its image deleted successfully" ∧
    (storage_router.delete_item c1db [] 40 1).2.1.items.filter
      (fun x => x.storage_no == 30) = [] ∧
    (storage_router.delete_storage (storage_router.delete_item c1db [] 40 1).2.1
        (crud.get_items_by_storage c1db emptyCache 30).2 30 1).1 =
      .err 400 "Cannot delete storage because items are associated with it. Please remove items first." ∧
    (storage_router.delete_storage (storage_router.delete_item c1db [] 40 1).2.1
        (crud.get_items_by_storage c1db emptyCache 30).2 30 1).2.1 =
      (storage_router.delete_item c1db [] 40 1).2.1 := by
  decide

/-! ## Claim C10: get_user_by_no cache path vs database path -/

/-- A store with one user who has a profile. -/
def c10db : DB :=
  { users := [⟨1, "a@b.com", "hash", "Alice", "01000000000", "1990-01-01", "misc", false, none⟩],
    profiles := [⟨7, 1, some "nick", none⟩], areas := [], rooms := [],
    storages := [], items := [], next_user_no := 2, next_area_no := 0 }

/-- C10 (code-bug evidence): on a cold cache `get_user_by_no` returns
the full ORM row and `profile_update` succeeds; on the warm cache the
same lookup returns the six-field JSON dict (no password, no disabled
flag, no profile relationship), and `profile_update`'s `user.profile`
attribute access fails (AttributeError, surfacing as HTTP 500).  The two
paths are observably different to callers. -/
theorem c10_cache_path_divergence :
    (crud.get_user_by_no c10db emptyCache 1).1 =
      some (UserVal.orm ⟨1, "a@b.com", "hash", "Alice", "01000000000", "1990-01-01", "misc", false, none⟩) ∧
    (crud.get_user_by_no c10db (crud.get_user_by_no c10db emptyCache 1).2 1).1 =
      some (UserVal.dict ⟨1, "a@b.com", "Alice", "01000000000", "1990-01-01", "misc"⟩) ∧
    (crud.profile_update c10db emptyCache 1 ⟨some "newnick"⟩).1 =
      .ok ⟨7, 1, some "newnick", none⟩ ∧
    (crud.profile_update c10db (crud.get_user_by_no c10db emptyCache 1).2 1 ⟨some "newnick"⟩).1 =
      .err 500 "AttributeError: dict object has no attribute profile" := by
  decide

/-! ## Claim C8: how a missing parent is reported -/

/-- A store holding a room whose parent area row is absent. -/
def c8db : DB :=
  { users := [], profiles := [], areas := [], rooms := [⟨20, 5, "R"⟩],
    storages := [], items := [], next_user_no := 0, next_area_no := 0 }

/-- C8 counterexample: room 20 references area 5 and the area table is
empty, yet reading the room yields 403 Forbidden — exactly the
ownership-denial outcome the claim says a missing parent never
produces. -/
theorem c8_counterexample :
    c8db.areas = [] ∧
    storage_router.read_room c8db 20 1 =
      .err 403 "You do not have permission to access this room." := by
  decide

/-- C8 (amended): only the Item→Furniture hop reports a missing parent
distinctly (404 "Storage not found"); a Room whose Area row is absent
and a Furniture whose Room row is absent are reported as 403 Forbidden,
indistinguishable from an ownership denial. -/
theorem c8_missing_parent_reporting (db : DB) (u : Nat)
    (it : Item) (r : Storage_Room) (st : Storage_Storage)
    (hi : it ∈ db.items) (hiK : ∀ x ∈ db.items, x.item_id = it.item_id → x = it)
    (hnost : ∀ x ∈ db.storages, x.storage_no ≠ it.storage_no)
    (hr : r ∈ db.rooms) (hrK : ∀ x ∈ db.rooms, x.room_no = r.room_no → x = r)
    (hnoa : ∀ x ∈ db.areas, x.area_no ≠ r.area_no)
    (hs : st ∈ db.storages) (hsK : ∀ x ∈ db.storages, x.storage_no = st.storage_no → x = st)
    (hnor : ∀ x ∈ db.rooms, x.room_no ≠ st.room_no) :
    storage_router.read_item db it.item_id u = .err 404 "Storage not found" ∧
    storage_router.read_room db r.room_no u =
      .err 403 "You do not have permission to access this room." ∧
    storage_router.read_storage db st.storage_no u =
      .err 403 "You do not have permission to access this furniture." := by
  have hgi : crud.get_item db it.item_id = .ok it := by
    have hh : (db.items.filter (fun x => x.item_id == it.item_id)).head? = some it := by
      refine head_filter_eq_of_mem _ _ it hi (by simp) ?_
      intro x hx hpx
      simp only [beq_iff_eq] at hpx
      exact hiK x hx hpx
    simp [crud.get_item, hh]
  have hgs0 : crud.get_storage db it.storage_no = .err 404 "Storage not found" := by
    have hh : db.storages.filter (fun x => x.storage_no == it.storage_no) = [] :=
      List.filter_eq_nil_iff.mpr (fun x hx => by simp [hnost x hx])
    simp [crud.get_storage, hh]
  have hgr : crud.get_room db r.room_no = some r := by
    unfold crud.get_room
    refine head_filter_eq_of_mem _ _ r hr (by simp) ?_
    intro x hx hpx
    simp only [beq_iff_eq] at hpx
    exact hrK x hx hpx
  have hgs : crud.get_storage db st.storage_no = .ok st := by
    have hh : (db.storages.filter (fun x => x.storage_no == st.storage_no)).head? = some st := by
      refine head_filter_eq_of_mem _ _ st hs (by simp) ?_
      intro x hx hpx
      simp only [beq_iff_eq] at hpx
      exact hsK x hx hpx
    simp [crud.get_storage, hh]
  refine ⟨?_, ?_, ?_⟩
  · simp [storage_router.read_item, hgi, hgs0]
  · simp [storage_router.read_room, hgr]
    intro x hx
    simp only [crud.get_areas_by_user, List.mem_filter] at hx
    exact hnoa x hx.1
  · simp [storage_router.read_storage, hgs]
    intro x hx
    simp only [crud.get_rooms_by_user, List.mem_filter] at hx
    exact hnor x hx.1

/-- A store with three orphans: item 40 under missing furniture 99,
room 20 under missing area 5, furniture 30 under missing room 77. -/
def c8dbW : DB :=
  { users := [], profiles := [], areas := [], rooms := [⟨20, 5, "R"⟩],
    storages := [⟨30, 77, "S", 1⟩], items := [⟨40, 99, "I", 1, none, "misc", 1⟩],
    next_user_no := 0, next_area_no := 0 }

/-- Witness for `c8_missing_parent_reporting` on `c8dbW`. -/
theorem c8_missing_parent_reporting_witness :
    ((⟨40, 99, "I", 1, none, "misc", 1⟩ : Item) ∈ c8dbW.items ∧
     (∀ x ∈ c8dbW.items, x.item_id = 40 → x = ⟨40, 99, "I", 1, none, "misc", 1⟩) ∧
     (∀ x ∈ c8dbW.storages, x.storage_no ≠ 99) ∧
     (⟨20, 5, "R"⟩ : Storage_Room) ∈ c8dbW.rooms ∧
     (∀ x ∈ c8dbW.rooms, x.room_no = 20 → x = ⟨20, 5, "R"⟩) ∧
     (∀ x ∈ c8dbW.areas, x.area_no ≠ 5) ∧
     (⟨30, 77, "S", 1⟩ : Storage_Storage) ∈ c8dbW.storages ∧
     (∀ x ∈ c8dbW.storages, x.storage_no = 30 → x = ⟨30, 77, "S", 1⟩) ∧
     (∀ x ∈ c8dbW.rooms, x.room_no ≠ 77)) ∧
    (storage_router.read_item c8dbW 40 1 = .err 404 "Storage not found" ∧
     storage_router.read_room c8dbW 20 1 =
       .err 403 "You do not have permission to access this room." ∧
     storage_router.read_storage c8dbW 30 1 =
       .err 403 "You do not have permission to access this furniture.") :=
  ⟨⟨by decide, by decide, by decide, by decide, by decide, by decide, by decide,
    by decide, by decide⟩,
   c8_missing_parent_reporting c8dbW 1 ⟨40, 99, "I", 1, none, "misc", 1⟩
     ⟨20, 5, "R"⟩ ⟨30, 77, "S", 1⟩ (by decide) (by decide) (by decide) (by decide)
     (by decide) (by decide) (by decide) (by decide) (by decide)⟩

/-! ## Claim C9: empty containers in list operations -/

/-- The empty store. -/
def c9db : DB :=
  { users := [], profiles := [], areas := [], rooms := [], storages := [],
    items := [], next_user_no := 0, next_area_no := 0 }

/-- C9 counterexample: a user with zero Areas asking for their own area
list receives 404, not an empty list, because
`crud.load_user_storage_space` raises on an empty result. -/
theorem c9_counterexample :
    c9db.areas = [] ∧
    storage_router.load_user_storage_space c9db 1 1 =
      .err 404 "No storage spaces found for this user with the given area_no" := by
  decide

/-- C9 (amended): the Rooms-in-Area, Furniture-in-Room and
Items-in-Furniture listings return an empty list as a non-error outcome
when the owned container is empty, but the all-Areas listing of a user
with zero areas terminates with 404 NotFound instead of an empty
list. -/
theorem c9_empty_listings (db : DB) (cache : Cache) (u0 U : Nat)
    (h0 : ∀ x ∈ db.areas, x.user_no ≠ u0)
    (aE a1 : Storage_Area) (rE r1 : Storage_Room) (stE : Storage_Storage)
    (haE : aE ∈ db.areas) (haEU : aE.user_no = U)
    (hnoRooms : ∀ x ∈ db.rooms, x.area_no ≠ aE.area_no)
    (ha1 : a1 ∈ db.areas) (ha1U : a1.user_no = U)
    (hrE : rE ∈ db.rooms) (hrEA : rE.area_no = a1.area_no)
    (hnoSt : ∀ x ∈ db.storages, x.room_no ≠ rE.room_no)
    (hr1 : r1 ∈ db.rooms) (hr1A : r1.area_no = a1.area_no)
    (hstE : stE ∈ db.storages) (hstER : stE.room_no = r1.room_no)
    (hstEK : ∀ x ∈ db.storages, x.storage_no = stE.storage_no → x = stE)
    (hnoIt : ∀ x ∈ db.items, x.storage_no ≠ stE.storage_no)
    (hcache : cacheGet cache.itemCache stE.storage_no = none) :
    storage_router.load_user_storage_space db u0 u0 =
      .err 404 "No storage spaces found for this user with the given area_no" ∧
    storage_router.read_rooms_by_area db aE.area_no U = .ok [] ∧
    storage_router.get_storages_by_room db rE.room_no U = .ok [] ∧
    (storage_router.get_items_by_storage_route db cache stE.storage_no U).1 =
      .ok (ItemsResult.fromDb []) := by
  have haEmem : aE ∈ crud.get_areas_by_user db U := by
    simp only [crud.get_areas_by_user, List.mem_filter, beq_iff_eq]
    exact ⟨haE, haEU⟩
  have hrEmem : rE ∈ crud.get_rooms_by_user db U := by
    simp only [crud.get_rooms_by_user, List.mem_filter]
    exact ⟨hrE, List.any_eq_true.mpr ⟨a1, ha1, by simp [hrEA, ha1U]⟩⟩
  have hr1mem : r1 ∈ crud.get_rooms_by_user db U := by
    simp only [crud.get_rooms_by_user, List.mem_filter]
    exact ⟨hr1, List.any_eq_true.mpr ⟨a1, ha1, by simp [hr1A, ha1U]⟩⟩
  have hgs : crud.get_storage db stE.storage_no = .ok stE := by
    have hh : (db.storages.filter (fun x => x.storage_no == stE.storage_no)).head? = some stE := by
      refine head_filter_eq_of_mem _ _ stE hstE (by simp) ?_
      intro x hx hpx
      simp only [beq_iff_eq] at hpx
      exact hstEK x hx hpx
    simp [crud.get_storage, hh]
  refine ⟨?_, ?_, ?_, ?_⟩
  · have hflt : db.areas.filter (fun a => a.user_no == u0 && a.storage_owner) = [] :=
      List.filter_eq_nil_iff.mpr (fun x hx => by simp [h0 x hx])
    simp [storage_router.load_user_storage_space, crud.load_user_storage_space, hflt]
  · have hflt : crud.get_rooms_by_area db aE.area_no = [] :=
      List.filter_eq_nil_iff.mpr (fun x hx => by simp [hnoRooms x hx])
    simp [storage_router.read_rooms_by_area, hflt]
    exact ⟨aE, haEmem, rfl⟩
  · have hflt : crud.get_storages_by_room db rE.room_no = [] :=
      List.filter_eq_nil_iff.mpr (fun x hx => by simp [hnoSt x hx])
    simp [storage_router.get_storages_by_room, hflt]
    exact ⟨rE, hrEmem, rfl⟩
  · have hflt : db.items.filter (fun x => x.storage_no == stE.storage_no) = [] :=
      List.filter_eq_nil_iff.mpr (fun x hx => by simp [hnoIt x hx])
    simp [storage_router.get_items_by_storage_route, hgs,
          crud.get_items_by_storage, hcache, hflt, ItemsResult.truthy]
    rw [if_neg (fun hf => hf r1 hr1mem hstER.symm)]

/-- A store with an empty area 10, a room 20 with no furniture, and a
furniture 30 with no items, all owned by user 1; user 2 owns nothing. -/
def c9dbW : DB :=
  { users := [], profiles := [],
    areas := [⟨10, 1, "AE", true⟩, ⟨11, 1, "A1", true⟩],
    rooms := [⟨20, 11, "RE"⟩, ⟨21, 11, "R1"⟩],
    storages := [⟨30, 21, "SE", 1⟩], items := [],
    next_user_no := 0, next_area_no := 12 }

/-- Witness for `c9_empty_listings` on `c9dbW`. -/
theorem c9_empty_listings_witness :
    ((∀ x ∈ c9dbW.areas, x.user_no ≠ 2) ∧
     (⟨10, 1, "AE", true⟩ : Storage_Area) ∈ c9dbW.areas ∧
     (∀ x ∈ c9dbW.rooms, x.area_no ≠ 10) ∧
     (⟨20, 11, "RE"⟩ : Storage_Room) ∈ c9dbW.rooms ∧
     (∀ x ∈ c9dbW.storages, x.room_no ≠ 20) ∧
     (⟨30, 21, "SE", 1⟩ : Storage_Storage) ∈ c9dbW.storages ∧
     (∀ x ∈ c9dbW.storages, x.storage_no = 30 → x = ⟨30, 21, "SE", 1⟩) ∧
     (∀ x ∈ c9dbW.items, x.storage_no ≠ 30) ∧
     cacheGet emptyCache.itemCache 30 = none) ∧
    (storage_router.load_user_storage_space c9dbW 2 2 =
       .err 404 "No storage spaces found for this user with the given area_no" ∧
     storage_router.read_rooms_by_area c9dbW 10 1 = .ok [] ∧
     storage_router.get_storages_by_room c9dbW 20 1 = .ok [] ∧
     (storage_router.get_items_by_storage_route c9dbW emptyCache 30 1).1 =
       .ok (ItemsResult.fromDb [])) :=
  ⟨⟨by decide, by decide, by decide, by decide, by decide, by decide, by decide,
    by decide, by decide⟩,
   c9_empty_listings c9dbW emptyCache 2 1 (by decide)
     ⟨10, 1, "AE", true⟩ ⟨11, 1, "A1", true⟩ ⟨20, 11, "RE"⟩ ⟨21, 11, "R1"⟩
     ⟨30, 21, "SE", 1⟩ (by decide) (by decide) (by decide) (by decide) (by decide)
     (by decide) (by decide) (by decide) (by decide) (by decide) (by decide)
     (by decide) (by decide) (by decide) (by decide)⟩

/-! ## Claim C5: single-consonant item search -/

/-- The first code point of the string is a precomposed syllable lying
in the 588-syllable block whose initial consonant is `c`. -/
def headBand (c : Nat) : List Nat → Bool
  | [] => false
  | n :: _ =>
    decide (crud.GA + crud.CHO.indexOf c * 588 ≤ n ∧
            n < crud.GA + crud.CHO.indexOf c * 588 + 588)

theorem cho_lt_ga : ∀ c ∈ crud.CHO, c < crud.GA := by decide

theorem cho_getD_indexOf : ∀ c ∈ crud.CHO, crud.CHO.getD (crud.CHO.indexOf c) 0 = c := by
  decide

theorem cho_indexOf_le : ∀ c ∈ crud.CHO, crud.CHO.indexOf c ≤ 18 := by decide

/-- A bare consonant is its own initial signature (it is not a
precomposed syllable). -/
theorem get_initial_single (c : Nat) (hc : c ∈ crud.CHO) :
    crud.get_initial [c] = [c] := by
  have h1 : ¬crud.GA ≤ c := Nat.not_le.mpr (cho_lt_ga c hc)
  simp [crud.get_initial, crud.initialOfCode, h1]

theorem likeStarts_nil (syl : Nat) : crud.likeStarts [syl] [] = false := by
  simp [crud.likeStarts, List.isPrefixOf]

theorem likeStarts_single (syl n : Nat) (t : List Nat) :
    crud.likeStarts [syl] (n :: t) = (crud.lowerCode syl == crud.lowerCode n) := by
  simp [crud.likeStarts, List.isPrefixOf]

theorem lowerCode_eq_self_of_ge (n : Nat) (h : 91 ≤ n) : crud.lowerCode n = n := by
  rw [crud.lowerCode, if_neg]
  omega

/-- ASCII case folding cannot move a code point into or out of a block
that starts above the ASCII range. -/
theorem lowerCode_band (st n : Nat) (hst : 123 ≤ st) :
    (st ≤ crud.lowerCode n ∧ crud.lowerCode n < st + 588) ↔ (st ≤ n ∧ n < st + 588) := by
  rw [crud.lowerCode]
  by_cases h : 65 ≤ n ∧ n ≤ 90
  · rw [if_pos h]
    omega
  · rw [if_neg h]

/-- The 588-way `OR` of syllable-prefix `ILIKE` patterns generated by
`get_chosung_range` matches a name exactly when its first code point
lies in the syllable block of the query consonant. -/
theorem range_any_eq_headBand (c : Nat) (hc : c ∈ crud.CHO) (ns : List Nat) :
    (crud.get_chosung_range c).any (fun syl => crud.likeStarts [syl] ns) = headBand c ns := by
  have hga : crud.GA = 44032 := rfl
  cases ns with
  | nil =>
    simp [headBand, likeStarts_nil]
  | cons n t =>
    rw [headBand]
    rw [Bool.eq_iff_iff]
    constructor
    · intro hany
      obtain ⟨syl, hsylmem, hlike⟩ := List.any_eq_true.mp hany
      simp only [crud.get_chosung_range, List.mem_flatMap, List.mem_map,
                 List.mem_range] at hsylmem
      obtain ⟨i, hi, j, hj, hsyl⟩ := hsylmem
      rw [likeStarts_single] at hlike
      have hge : 91 ≤ syl := by omega
      rw [lowerCode_eq_self_of_ge _ hge] at hlike
      have heq : syl = crud.lowerCode n := by
        have := (beq_iff_eq (a := syl) (b := crud.lowerCode n)).mp hlike
        exact this
      have hband : crud.GA + crud.CHO.indexOf c * 588 ≤ crud.lowerCode n ∧
          crud.lowerCode n < crud.GA + crud.CHO.indexOf c * 588 + 588 := by omega
      exact decide_eq_true
        ((lowerCode_band _ n (by omega)).mp hband)
    · intro hdec
      have hband : crud.GA + crud.CHO.indexOf c * 588 ≤ n ∧
          n < crud.GA + crud.CHO.indexOf c * 588 + 588 := of_decide_eq_true hdec
      apply List.any_eq_true.mpr
      refine ⟨n, ?_, ?_⟩
      · simp only [crud.get_chosung_range, List.mem_flatMap, List.mem_map,
                   List.mem_range]
        refine ⟨(n - (crud.GA + crud.CHO.indexOf c * 588)) / 28, by omega,
                (n - (crud.GA + crud.CHO.indexOf c * 588)) % 28, by omega, by omega⟩
      · rw [likeStarts_single]
        simp

/-- A name whose first code point is a syllable carrying the initial `c`
has an initial signature containing `c`. -/
theorem headBand_initial (c : Nat) (hc : c ∈ crud.CHO) (ns : List Nat)
    (h : headBand c ns = true) :
    crud.hasSub [c] (crud.get_initial ns) = true := by
  cases ns with
  | nil => cases h
  | cons n t =>
    have hband := of_decide_eq_true h
    have hidx : crud.CHO.indexOf c ≤ 18 := cho_indexOf_le c hc
    have hga : crud.GA = 44032 := rfl
    have hhih : crud.HIH = 55203 := rfl
    have h1 : crud.GA ≤ n ∧ n ≤ crud.HIH := by omega
    have h2 : (n - crud.GA) / 588 = crud.CHO.indexOf c := by omega
    have hinit : crud.initialOfCode n = [c] := by
      rw [crud.initialOfCode, if_pos h1, h2, cho_getD_indexOf c hc]
    have hsplit : crud.get_initial (n :: t) = c :: crud.get_initial t := by
      simp [crud.get_initial, hinit]
    rw [hsplit]
    simp [crud.hasSub, List.isPrefixOf]

/-- A one-item store whose item's name starts with the bare consonant
character ㄱ followed by the syllable 나. -/
def c5item : Item := ⟨1, 1, "ㄱ나", 1, none, "misc", 1⟩

/-- The store for the C5 counterexample. -/
def c5db : DB := ⟨[], [], [], [], [], [c5item], 0, 0⟩

/-- C5 counterexample: the initial-sound signature of the item's name
starts with the query token ㄱ (so the claim requires the item in the
result, via initial-sound expansion unioned with direct substring
match), but the search returns nothing: the single-consonant branch only
matches names beginning with a precomposed syllable and performs no
substring union. -/
theorem c5_counterexample :
    List.isPrefixOf (crud.codes "ㄱ") (crud.get_initial (crud.codes c5item.item_name)) = true ∧
    c5item ∈ c5db.items ∧
    crud.get_item_list c5db "ㄱ" = [] := by
  decide

/-- C5 (amended): for a query that is a single consonant token `c`, the
search returns exactly the items whose name's first code point is a
precomposed syllable carrying initial `c`; there is no union with direct
substring matches, and the post-filter (signature containment) is
subsumed by that prefix condition. -/
theorem c5_single_consonant_search (db : DB) (c : Nat) (hc : c ∈ crud.CHO)
    (s : String) (hs : crud.codes s = [c]) :
    crud.get_item_list db s =
      db.items.filter (fun it => headBand c (crud.codes it.item_name)) := by
  have hcc : crud.CHO.contains c = true := List.elem_iff.mpr hc
  have hmain : crud.get_item_list db s =
      (db.items.filter (fun it =>
        (crud.get_chosung_range c).any
          (fun syl => crud.likeStarts [syl] (crud.codes it.item_name)))).filter
        (fun it => crud.hasSub [c] (crud.get_initial (crud.codes it.item_name))) := by
    simp only [crud.get_item_list, hs, hcc, get_initial_single c hc, if_true]
  rw [hmain, List.filter_filter]
  apply List.filter_congr
  intro x hx
  rw [range_any_eq_headBand c hc]
  cases hb : headBand c (crud.codes x.item_name) with
  | true => simp [headBand_initial c hc _ hb]
  | false => simp

/-- A one-item store whose item is named with the syllables 가나. -/
def c5dbW : DB := ⟨[], [], [], [], [], [⟨2, 1, "가나", 1, none, "misc", 1⟩], 0, 0⟩

/-- Witness for `c5_single_consonant_search`: searching `c5dbW` for the
consonant ㄱ. -/
theorem c5_single_consonant_search_witness :
    ((0x3131 : Nat) ∈ crud.CHO ∧ crud.codes "ㄱ" = [0x3131]) ∧
    crud.get_item_list c5dbW "ㄱ" =
      c5dbW.items.filter (fun it => headBand 0x3131 (crud.codes it.item_name)) :=
  ⟨⟨by decide, by decide⟩,
   c5_single_consonant_search c5dbW 0x3131 (by decide) "ㄱ" (by decide)⟩

/-- Witness for `c1_ownership_routes` at the concrete chain of `c1db`
with owner 1 and stranger 2. -/
theorem c1_ownership_routes_witness :
    (ChainOwned c1db 1 ⟨10, 1, "A", true⟩ ⟨20, 10, "R"⟩ ⟨30, 20, "S", 1⟩
        ⟨40, 30, "I", 1, some "/images/items/x.png", "misc", 1⟩ ∧
      (2 : Nat) ≠ 1 ∧ cacheGet emptyCache.itemCache 30 = none) ∧
    C1Outcomes c1db emptyCache [] 1 2 ⟨10, 1, "A", true⟩ ⟨20, 10, "R"⟩
      ⟨30, 20, "S", 1⟩ ⟨40, 30, "I", 1, some "/images/items/x.png", "misc", 1⟩ :=
  ⟨⟨by decide, by decide, by decide⟩,
   c1_ownership_routes c1db emptyCache [] 1 2 _ _ _ _ (by decide) (by decide) (by decide)⟩

end BackEnd
